import Mathlib

/-!
Veyon Linux platform plugin and Wayland portal VNC server

A shallow embedding of

* `plugins/platform/linux/LinuxInputDeviceFunctions.cpp` (keyboard lock-out by
  blanking the X11 keyboard mapping),
* `plugins/platform/linux/LinuxKeyboardInput.cpp` (synthetic keystrokes through
  libfakekey),
* `plugins/vncserver/wayland-portal/WaylandPortalVncServer.cpp` (portal
  handshake and RFB server start-up),

together with the properties proved about them.  External libraries (Xlib,
libfakekey, Qt, D-Bus, libvncserver) are represented by small explicit models
of the calls the sources make; every outcome the sources branch on is an
explicit argument.
-/

namespace Veyon

/-! ## Xlib: the keyboard mapping of a display -/

/-- An X11 key symbol. -/
abbrev KeySym := Nat

/-- The null key symbol (`NoSymbol`, the value `0` the source stores). -/
def NoSymbol : KeySym := 0

/-- The keyboard-mapping part of an X server, as Xlib clients observe it:
the keycode range, the number of symbol slots per keycode and the symbol held
in each slot.  `keysyms kc j` is the symbol in slot `j` of keycode `kc`; only
slots `j < keysyms_per_keycode` belong to the mapping. -/
structure Display where
  min_keycode : Nat
  max_keycode : Nat
  keysyms_per_keycode : Nat
  keysyms : Nat → Nat → KeySym

/-- The X protocol transmits keycodes and the mapping width as 8-bit
quantities and guarantees `8 ≤ min_keycode ≤ max_keycode ≤ 255`. -/
def Display.Valid (d : Display) : Prop :=
  8 ≤ d.min_keycode ∧ d.min_keycode ≤ d.max_keycode ∧ d.max_keycode ≤ 255 ∧
    d.keysyms_per_keycode ≤ 255

instance (d : Display) : Decidable d.Valid := by
  unfold Display.Valid
  infer_instance

/-- The symbol a mapping query reports for slot `j` of keycode `kc`. -/
def Display.lookup (d : Display) (kc j : Nat) : KeySym :=
  if j < d.keysyms_per_keycode then d.keysyms kc j else NoSymbol

/-- `XDisplayKeycodes(display, &min, &max)`. -/
def XDisplayKeycodes (d : Display) : Int × Int :=
  ((d.min_keycode : Int), (d.max_keycode : Int))

/-- The conversion `::KeyCode( x )` of an `int` to Xlib's `unsigned char`
keycode type. -/
def KeyCode (x : Int) : Nat :=
  (x % 256).toNat

/-- `XGetKeyboardMapping(display, first_keycode, keycode_count, &per)`:
the flat table of `keycode_count * per` symbols, row by row, and the width
`per` written through the out-parameter. -/
def XGetKeyboardMapping (d : Display) (first_keycode : Nat) (keycode_count : Int) :
    List KeySym × Int :=
  ((List.range (keycode_count.toNat * d.keysyms_per_keycode)).map
      (fun i => d.keysyms (first_keycode + i / d.keysyms_per_keycode)
                  (i % d.keysyms_per_keycode)),
   (d.keysyms_per_keycode : Int))

/-- `XChangeKeyboardMapping(display, first_keycode, keysyms_per_keycode,
keysyms, num_codes)`: the `num_codes` keycodes starting at `first_keycode`
receive the rows of the flat table `keysyms`; rows narrower than the server's
width are padded with `NoSymbol`, a wider table widens the server's mapping,
every other keycode keeps its symbols. -/
def XChangeKeyboardMapping (d : Display) (first_keycode : Int) (keysyms_per_keycode : Int)
    (keysyms : List KeySym) (num_codes : Int) : Display :=
  { d with
    keysyms_per_keycode := max d.keysyms_per_keycode keysyms_per_keycode.toNat
    keysyms := fun kc j =>
      if first_keycode ≤ (kc : Int) ∧ (kc : Int) < first_keycode + num_codes then
        if (j : Int) < keysyms_per_keycode then
          keysyms.getD ((((kc : Int) - first_keycode) * keysyms_per_keycode + (j : Int)).toNat)
            NoSymbol
        else NoSymbol
      else d.lookup kc j }

/-! ## LinuxInputDeviceFunctions -/

/-- The data members of `LinuxInputDeviceFunctions`.  `m_origKeyTable` is the
pointer to the saved table: `none` is the null pointer. -/
structure LinuxInputDeviceFunctions where
  m_inputDevicesDisabled : Bool
  m_origKeyTable : Option (List KeySym)
  m_keyCodeMin : Int
  m_keyCodeMax : Int
  m_keyCodeCount : Int
  m_keySymsPerKeyCode : Int

/-- A freshly constructed object: input enabled, no saved table. -/
def LinuxInputDeviceFunctions.initial : LinuxInputDeviceFunctions :=
  { m_inputDevicesDisabled := false
    m_origKeyTable := none
    m_keyCodeMin := 0
    m_keyCodeMax := 0
    m_keyCodeCount := 0
    m_keySymsPerKeyCode := 0 }

/-- The object together with the X server it talks to. -/
structure Machine where
  self : LinuxInputDeviceFunctions
  display : Display

/-- The loop `for( int i = 0; i < n; i++ ) newKeyTable[i] = 0;`. -/
def zeroKeyTable (n : Int) (newKeyTable : List KeySym) : List KeySym :=
  (List.range n.toNat).foldl (fun t i => t.set i 0) newKeyTable

/-- `LinuxInputDeviceFunctions::setEmptyKeyMapTable()`.  `opens` tells whether
`XOpenDisplay` returns a connection.  `XFree( m_origKeyTable )` releases the
old table but leaves the pointer member as it is. -/
def setEmptyKeyMapTable (opens : Bool) (m : Machine) : Machine :=
  if opens = false then
    m
  else
    let (keyCodeMin, keyCodeMax) := XDisplayKeycodes m.display
    let keyCodeCount := keyCodeMax - keyCodeMin
    let (origKeyTable, _) := XGetKeyboardMapping m.display (KeyCode keyCodeMin) keyCodeCount
    let (newKeyTable, keySymsPerKeyCode) :=
      XGetKeyboardMapping m.display (KeyCode keyCodeMin) keyCodeCount
    let newKeyTable := zeroKeyTable (keyCodeCount * keySymsPerKeyCode) newKeyTable
    { self :=
        { m.self with
          m_origKeyTable := some origKeyTable
          m_keyCodeMin := keyCodeMin
          m_keyCodeMax := keyCodeMax
          m_keyCodeCount := keyCodeCount
          m_keySymsPerKeyCode := keySymsPerKeyCode }
      display :=
        XChangeKeyboardMapping m.display keyCodeMin keySymsPerKeyCode newKeyTable keyCodeCount }

/-- `LinuxInputDeviceFunctions::restoreKeyMapTable()`. -/
def restoreKeyMapTable (opens : Bool) (m : Machine) : Machine :=
  if opens = false then
    m
  else
    match m.self.m_origKeyTable with
    | none => m
    | some origKeyTable =>
      { self := { m.self with m_origKeyTable := none }
        display :=
          XChangeKeyboardMapping m.display m.self.m_keyCodeMin m.self.m_keySymsPerKeyCode
            origKeyTable m.self.m_keyCodeCount }

/-- `LinuxInputDeviceFunctions::enableInputDevicesWayland()`: logs only. -/
def enableInputDevicesWayland (m : Machine) : Machine := m

/-- `LinuxInputDeviceFunctions::disableInputDevicesWayland()`: logs only. -/
def disableInputDevicesWayland (m : Machine) : Machine := m

/-- `LinuxInputDeviceFunctions::enableInputDevices()`.  `wayland` is the value
of `isWaylandSession()` (whether `WAYLAND_DISPLAY` is set). -/
def enableInputDevices (wayland opens : Bool) (m : Machine) : Machine :=
  if m.self.m_inputDevicesDisabled then
    let m1 := if wayland then enableInputDevicesWayland m else restoreKeyMapTable opens m
    { m1 with self := { m1.self with m_inputDevicesDisabled := false } }
  else
    m

/-- `LinuxInputDeviceFunctions::disableInputDevices()`. -/
def disableInputDevices (wayland opens : Bool) (m : Machine) : Machine :=
  if m.self.m_inputDevicesDisabled = false then
    let m1 := if wayland then disableInputDevicesWayland m else setEmptyKeyMapTable opens m
    { m1 with self := { m1.self with m_inputDevicesDisabled := true } }
  else
    m

/-- The two public calls of the input-suspend controller. -/
inductive Call
  | disable
  | enable
  deriving DecidableEq, Repr

/-- One call, with the outcome of its `XOpenDisplay`. -/
def step (wayland : Bool) (m : Machine) (c : Call × Bool) : Machine :=
  match c.1 with
  | Call.disable => disableInputDevices wayland c.2 m
  | Call.enable => enableInputDevices wayland c.2 m

/-- A sequence of calls, executed left to right. -/
def run (wayland : Bool) (m : Machine) (cs : List (Call × Bool)) : Machine :=
  cs.foldl (step wayland) m

/-- Consecutive duplicate calls collapsed to one. -/
def collapse : List Call → List Call
  | [] => []
  | [c] => [c]
  | c :: c' :: cs => if c = c' then collapse (c' :: cs) else c :: collapse (c' :: cs)

/-- Every `XOpenDisplay` of the sequence succeeds. -/
def reachable (cs : List Call) : List (Call × Bool) :=
  cs.map (fun c => (c, true))

/-- A small display used to evaluate the definitions: keycodes 8..10, two
slots per keycode, slot `j` of keycode `kc` holding `100 * kc + j + 1`. -/
def sampleDisplay : Display :=
  { min_keycode := 8
    max_keycode := 10
    keysyms_per_keycode := 2
    keysyms := fun kc j => 100 * kc + j + 1 }

/-- A fresh controller attached to `sampleDisplay`. -/
def sampleMachine : Machine :=
  { self := LinuxInputDeviceFunctions.initial, display := sampleDisplay }

/-- The saved-table pointer is non-null exactly when the flag is set. -/
def SnapshotIffSuspended (m : Machine) : Prop :=
  m.self.m_origKeyTable.isSome = true ↔ m.self.m_inputDevicesDisabled = true

instance (m : Machine) : Decidable (SnapshotIffSuspended m) := by
  unfold SnapshotIffSuspended
  infer_instance

/-! ## Qt strings -/

/-- A `QString`: its sequence of UTF-16 code units (`QChar` values, below
65536). -/
abbrev QString := List Nat

/-- A `QByteArray`: its sequence of bytes. -/
abbrev QByteArray := List Nat

/-- `QString::mid(position, n)`. -/
def QString.mid (s : QString) (position n : Nat) : QString :=
  (s.drop position).take n

/-- `QChar::isHighSurrogate`. -/
def isHighSurrogate (u : Nat) : Bool :=
  decide (0xD800 ≤ u) && decide (u < 0xDC00)

/-- `QChar::isLowSurrogate`. -/
def isLowSurrogate (u : Nat) : Bool :=
  decide (0xDC00 ≤ u) && decide (u < 0xE000)

/-- `QChar::isSurrogate`. -/
def isSurrogate (u : Nat) : Bool :=
  decide (0xD800 ≤ u) && decide (u < 0xE000)

/-- `QChar::surrogateToUcs4(high, low)`. -/
def surrogateToUcs4 (high low : Nat) : Nat :=
  0x10000 + (high - 0xD800) * 0x400 + (low - 0xDC00)

/-- The UTF-8 encoding of one code point. -/
def utf8Encode (cp : Nat) : QByteArray :=
  if cp < 0x80 then [cp]
  else if cp < 0x800 then [0xC0 + cp / 64, 0x80 + cp % 64]
  else if cp < 0x10000 then [0xE0 + cp / 4096, 0x80 + cp / 64 % 64, 0x80 + cp % 64]
  else [0xF0 + cp / 262144, 0x80 + cp / 4096 % 64, 0x80 + cp / 64 % 64, 0x80 + cp % 64]

/-- `QString::toUtf8()`: a high surrogate followed by a low surrogate is
encoded as the code point the pair denotes, any other code unit on its own; a
surrogate without its partner cannot be encoded and Qt emits `?` (63) for
it. -/
def QString.toUtf8 : QString → QByteArray
  | [] => []
  | [u] => if isSurrogate u then [63] else utf8Encode u
  | u :: v :: rest =>
    if isHighSurrogate u && isLowSurrogate v then
      utf8Encode (surrogateToUcs4 u v) ++ QString.toUtf8 rest
    else
      (if isSurrogate u then [63] else utf8Encode u) ++ QString.toUtf8 (v :: rest)

/-- The Unicode code points of a string: a surrogate pair is one code point,
every other code unit is a code point of its own. -/
def codePoints : QString → List Nat
  | [] => []
  | [u] => [u]
  | u :: v :: rest =>
    if isHighSurrogate u && isLowSurrogate v then
      surrogateToUcs4 u v :: codePoints rest
    else
      u :: codePoints (v :: rest)

/-! ## LinuxKeyboardInput -/

/-- The libfakekey entry points the keyboard code calls, with their
arguments (the handle apart). -/
inductive FakeKeyCall
  | fakekey_press_keysym (keysym : Nat) (flags : Int)
  | fakekey_press (utf8_char_in : QByteArray) (len_bytes : Int) (flags : Int)
  | fakekey_release
  deriving DecidableEq, Repr

/-- The library calls the constructor can make. -/
inductive SetupCall
  | XOpenDisplay
  | fakekey_init
  deriving DecidableEq, Repr

/-- The data members of `LinuxKeyboardInput`; for the two pointers `true`
stands for a non-null value.  Both pointers start out null (the member
initialisers are in `LinuxKeyboardInput.h`). -/
structure LinuxKeyboardInput where
  m_isWayland : Bool
  m_display : Bool
  m_fakeKeyHandle : Bool
  deriving DecidableEq, Repr

/-- The constructor `LinuxKeyboardInput::LinuxKeyboardInput()`, with the
library calls it makes.  `waylandDisplay` tells whether the environment holds
`WAYLAND_DISPLAY`, `displayOpens` whether `XOpenDisplay` returns a connection,
`handleBinds` whether `fakekey_init` returns a handle. -/
def LinuxKeyboardInput.construct (waylandDisplay displayOpens handleBinds : Bool) :
    LinuxKeyboardInput × List SetupCall :=
  if waylandDisplay = false then
    if displayOpens then
      ({ m_isWayland := waylandDisplay, m_display := true, m_fakeKeyHandle := handleBinds },
        [SetupCall.XOpenDisplay, SetupCall.fakekey_init])
    else
      ({ m_isWayland := waylandDisplay, m_display := false, m_fakeKeyHandle := false },
        [SetupCall.XOpenDisplay])
  else
    ({ m_isWayland := waylandDisplay, m_display := false, m_fakeKeyHandle := false }, [])

/-- The argument of the two overloads of `pressAndReleaseKey`: a key symbol
(`uint32_t`) or a UTF-8 text unit (`const QByteArray&`). -/
inductive Key
  | keysym (keysym : Nat)
  | utf8Data (utf8Data : QByteArray)
  deriving DecidableEq, Repr

/-- `LinuxKeyboardInput::pressAndReleaseKeyX11`, both overloads: the
libfakekey calls made. -/
def pressAndReleaseKeyX11 (self : LinuxKeyboardInput) (key : Key) : List FakeKeyCall :=
  if self.m_fakeKeyHandle then
    match key with
    | Key.keysym keysym =>
      [FakeKeyCall.fakekey_press_keysym keysym 0, FakeKeyCall.fakekey_release]
    | Key.utf8Data utf8Data =>
      [FakeKeyCall.fakekey_press utf8Data (utf8Data.length : Int) 0, FakeKeyCall.fakekey_release]
  else
    []

/-- `LinuxKeyboardInput::pressAndReleaseKeyWayland`, both overloads: a debug
message and nothing else. -/
def pressAndReleaseKeyWayland (_self : LinuxKeyboardInput) (_key : Key) : List FakeKeyCall :=
  []

/-- `LinuxKeyboardInput::pressAndReleaseKey`, both overloads. -/
def pressAndReleaseKey (self : LinuxKeyboardInput) (key : Key) : List FakeKeyCall :=
  if self.m_isWayland then pressAndReleaseKeyWayland self key
  else pressAndReleaseKeyX11 self key

/-- The arguments of the successive `pressAndReleaseKey` calls of
`sendString`: `string.mid( i, 1 ).toUtf8()` for `i = 0 .. size() - 1`. -/
def sendStringUnits (string : QString) : List QByteArray :=
  (List.range string.length).map (fun i => QString.toUtf8 (QString.mid string i 1))

/-- `LinuxKeyboardInput::sendString`: the libfakekey calls made, in order. -/
def sendString (self : LinuxKeyboardInput) (string : QString) : List FakeKeyCall :=
  (sendStringUnits string).flatMap (fun unit => pressAndReleaseKey self (Key.utf8Data unit))

/-- A keyboard object on the X11 backend with a bound injection handle. -/
def boundX11 : LinuxKeyboardInput :=
  (LinuxKeyboardInput.construct false true true).1

/-- The claim that `sendString` passes on one text unit per code point, each
the UTF-8 encoding of that code point. -/
def OneUnitPerCodePoint (string : QString) : Prop :=
  sendStringUnits string = (codePoints string).map utf8Encode ∧
    (sendStringUnits string).length = (codePoints string).length

instance (string : QString) : Decidable (OneUnitPerCodePoint string) := by
  unfold OneUnitPerCodePoint
  infer_instance

/-! ## WaylandPortalVncServer -/

/-- A `QColor`, as its `0xRRGGBB` value. -/
abbrev QColor := Nat

/-- `Qt::black`. -/
def Qt.black : QColor := 0

/-- The configuration proxy declared by
`FOREACH_WAYLAND_PORTAL_VNC_CONFIG_PROPERTY`: one property, `BackgroundColor`
under `WaylandVnc`, whose stored value may be absent. -/
structure WaylandPortalVncConfiguration where
  storedBackgroundColor : Option QColor

/-- The getter `backgroundColor()`: the stored value, `QColor(Qt::black)` when
none is stored. -/
def WaylandPortalVncConfiguration.backgroundColor (c : WaylandPortalVncConfiguration) : QColor :=
  c.storedBackgroundColor.getD Qt.black

/-- A `QImage` of format `RGB32`: its dimensions and the colour of the pixel
at column `x`, row `y`. -/
structure QImage where
  width : Nat
  height : Nat
  pixel : Nat → Nat → QColor

/-- The default-constructed (null) image. -/
def QImage.null : QImage :=
  { width := 0, height := 0, pixel := fun _ _ => 0 }

/-- `QImage( width, height, QImage::Format_RGB32 )`; `garbage` is the
uninitialised pixel data. -/
def QImage.create (width height : Nat) (garbage : Nat → Nat → QColor) : QImage :=
  { width := width, height := height, pixel := garbage }

/-- `QImage::fill( color )`. -/
def QImage.fill (img : QImage) (color : QColor) : QImage :=
  { img with pixel := fun _ _ => color }

/-- A plaintext password, as bytes. -/
abbrev Password := List Nat

/-- `qstrdup` of the password's `constData()`: the bytes up to the first
NUL. -/
def qstrdup (bytes : List Nat) : List Nat :=
  bytes.takeWhile (fun b => b != 0)

/-- The members of libvncserver's `rfbScreenInfo` that `initVncServer` sets
or reads.  `frameBuffer` stands for the pointer into the image's pixel data:
the pixels the server serves. -/
structure rfbScreenInfo where
  width : Nat
  height : Nat
  desktopName : String
  frameBuffer : Nat → Nat → QColor
  port : Int
  ipv6port : Int
  authPasswdData : List (Option (List Nat))
  redShift : Nat
  greenShift : Nat
  blueShift : Nat
  redMax : Nat
  greenMax : Nat
  blueMax : Nat
  trueColour : Bool
  bitsPerPixel : Nat
  alwaysShared : Bool
  handleEventsEagerly : Bool
  deferUpdateTime : Nat

/-- The local `struct WaylandVncScreen`. -/
structure WaylandVncScreen where
  rfbScreen : Option rfbScreenInfo
  passwords : List (Option (List Nat))
  framebuffer : QImage
  width : Nat
  height : Nat

/-- A default-initialised `WaylandVncScreen`. -/
def WaylandVncScreen.default : WaylandVncScreen :=
  { rfbScreen := none, passwords := [none, none], framebuffer := QImage.null,
    width := 0, height := 0 }

/-- The data members of `WaylandPortalVncServer`. -/
structure WaylandPortalVncServer where
  m_sessionHandle : String
  m_sessionPath : String
  m_portalInitialized : Bool
  m_pipewireFd : Int
  m_pipewireNode : Nat
  m_configuration : WaylandPortalVncConfiguration

/-- The constructor, with the in-class member initialisers of the header. -/
def WaylandPortalVncServer.construct (config : WaylandPortalVncConfiguration) :
    WaylandPortalVncServer :=
  { m_sessionHandle := "", m_sessionPath := "", m_portalInitialized := false,
    m_pipewireFd := -1, m_pipewireNode := 0, m_configuration := config }

/-- `WaylandPortalVncServer::DefaultFramebufferWidth`. -/
def DefaultFramebufferWidth : Nat := 1920

/-- `WaylandPortalVncServer::DefaultFramebufferHeight`. -/
def DefaultFramebufferHeight : Nat := 1080

/-- The calls sent to the portal's ScreenCast interface over D-Bus. -/
inductive PortalCall
  | CreateSession
  | SelectSources
  | Start
  deriving DecidableEq, Repr

/-- The libvncserver calls of `initVncServer`, with the arguments that
matter here. -/
inductive RfbCall
  | rfbGetScreen (width height bitsPerSample samplesPerPixel bytesPerPixel : Nat)
  | rfbInitServer
  | rfbMarkRectAsModified (x1 y1 x2 y2 : Nat)
  deriving DecidableEq, Repr

/-- Everything outside the process that one `runServer` call depends on:
whether the ScreenCast interface is valid when `initPortalSession` and
`startScreenCast` construct it, the reply to each portal call (`CreateSession`
answers with the session object path, `none` for an invalid reply), whether
`rfbGetScreen` returns a screen, and the uninitialised contents of a new
image. -/
structure Environment where
  screenCastValid : Bool
  createSessionReply : Option String
  screenCastValidAtStart : Bool
  selectSourcesReplyValid : Bool
  startReplyValid : Bool
  rfbGetScreenReturns : Bool
  garbage : Nat → Nat → QColor

/-- `WaylandPortalVncServer::initPortalSession()`: the return value, the
object afterwards and the portal calls made. -/
def initPortalSession (self : WaylandPortalVncServer) (env : Environment) :
    Bool × WaylandPortalVncServer × List PortalCall :=
  if env.screenCastValid = false then
    (false, self, [])
  else
    match env.createSessionReply with
    | none => (false, self, [PortalCall.CreateSession])
    | some path =>
      (true,
        { self with m_sessionPath := path, m_sessionHandle := path, m_portalInitialized := true },
        [PortalCall.CreateSession])

/-- `WaylandPortalVncServer::initScreen( screen )`. -/
def initScreen (self : WaylandPortalVncServer) (env : Environment) (screen : WaylandVncScreen) :
    Bool × WaylandVncScreen :=
  let screen1 := { screen with width := DefaultFramebufferWidth }
  let screen2 := { screen1 with height := DefaultFramebufferHeight }
  let screen3 :=
    { screen2 with framebuffer := QImage.create screen2.width screen2.height env.garbage }
  let screen4 :=
    { screen3 with
      framebuffer := screen3.framebuffer.fill self.m_configuration.backgroundColor }
  (true, screen4)

/-- `WaylandPortalVncServer::initVncServer( serverPort, password, screen )`:
the return value, the screen afterwards and the libvncserver calls made. -/
def initVncServer (env : Environment) (serverPort : Int) (password : Password)
    (screen : WaylandVncScreen) : Bool × WaylandVncScreen × List RfbCall :=
  let getScreen :=
    RfbCall.rfbGetScreen screen.framebuffer.width screen.framebuffer.height 8 3 4
  if env.rfbGetScreenReturns = false then
    (false, screen, [getScreen])
  else
    let passwords := screen.passwords.set 0 (some (qstrdup password))
    let rfbScreen : rfbScreenInfo :=
      { width := screen.framebuffer.width
        height := screen.framebuffer.height
        desktopName := "VeyonVNC-Wayland"
        frameBuffer := screen.framebuffer.pixel
        port := serverPort
        ipv6port := serverPort
        authPasswdData := passwords
        redShift := 16
        greenShift := 8
        blueShift := 0
        redMax := 255
        greenMax := 255
        blueMax := 255
        trueColour := true
        bitsPerPixel := 32
        alwaysShared := true
        handleEventsEagerly := true
        deferUpdateTime := 5 }
    (true,
      { screen with passwords := passwords, rfbScreen := some rfbScreen },
      [getScreen, RfbCall.rfbInitServer,
        RfbCall.rfbMarkRectAsModified 0 0 rfbScreen.width rfbScreen.height])

/-- `WaylandPortalVncServer::startScreenCast()`: the return value and the
portal calls made. -/
def startScreenCast (self : WaylandPortalVncServer) (env : Environment) :
    Bool × List PortalCall :=
  if self.m_portalInitialized = false then
    (false, [])
  else if env.screenCastValidAtStart = false then
    (false, [])
  else if env.selectSourcesReplyValid = false then
    (false, [PortalCall.SelectSources])
  else if env.startReplyValid = false then
    (false, [PortalCall.SelectSources, PortalCall.Start])
  else
    (true, [PortalCall.SelectSources, PortalCall.Start])

/-- `WaylandPortalVncServer::processScreenCastFrames( screen )`: a
placeholder that leaves the screen alone. -/
def processScreenCastFrames (screen : WaylandVncScreen) : WaylandVncScreen :=
  screen

/-- How a `runServer` call goes on after its start-up phase: it returns a
value to its caller, or it enters the `while( true )` loop, which has no exit,
with the given screen. -/
inductive Outcome
  | returned (value : Bool)
  | mainLoop (screen : WaylandVncScreen)

/-- The record of one `runServer` call. -/
structure RunServer where
  self : WaylandPortalVncServer
  portalCalls : List PortalCall
  rfbCalls : List RfbCall
  outcome : Outcome

/-- `WaylandPortalVncServer::runServer( serverPort, password )` up to the
point where it returns or enters its main loop. -/
def runServer (self : WaylandPortalVncServer) (env : Environment) (serverPort : Int)
    (password : Password) : RunServer :=
  let (_, self1, calls1) := initPortalSession self env
  let screen := WaylandVncScreen.default
  let (screenOk, screen1) := initScreen self1 env screen
  if screenOk = false then
    { self := self1, portalCalls := calls1, rfbCalls := [], outcome := Outcome.returned false }
  else
    let (serverOk, screen2, rfbCalls) := initVncServer env serverPort password screen1
    if serverOk = false then
      { self := self1, portalCalls := calls1, rfbCalls := rfbCalls,
        outcome := Outcome.returned false }
    else
      let calls2 := if self1.m_portalInitialized then (startScreenCast self1 env).2 else []
      { self := self1, portalCalls := calls1 ++ calls2, rfbCalls := rfbCalls,
        outcome := Outcome.mainLoop screen2 }

/-- One pass through the body of the main loop, as far as the screen is
concerned: the frame placeholder runs when the portal is initialised, and
`rfbProcessEvents` only reads the framebuffer. -/
def mainLoopBody (self : WaylandPortalVncServer) (screen : WaylandVncScreen) :
    WaylandVncScreen :=
  if self.m_portalInitialized then processScreenCastFrames screen else screen

/-- The main loop was entered. -/
def Outcome.entersLoop : Outcome → Bool
  | Outcome.returned _ => false
  | Outcome.mainLoop _ => true

/-- The value handed back to the caller, if the call returns. -/
def Outcome.returnValue : Outcome → Option Bool
  | Outcome.returned value => some value
  | Outcome.mainLoop _ => none

/-- The screen the main loop runs with, if it is entered. -/
def Outcome.screen : Outcome → Option WaylandVncScreen
  | Outcome.returned _ => none
  | Outcome.mainLoop screen => some screen

/-- An environment in which every step succeeds. -/
def allGood : Environment :=
  { screenCastValid := true
    createSessionReply := some "/org/freedesktop/portal/desktop/session/veyon"
    screenCastValidAtStart := true
    selectSourcesReplyValid := true
    startReplyValid := true
    rfbGetScreenReturns := true
    garbage := fun x y => x + y }

/-- An environment without a portal service; the RFB screen can be
allocated. -/
def noBroker : Environment :=
  { allGood with screenCastValid := false, screenCastValidAtStart := false }

/-- An environment in which the portal works and `rfbGetScreen` fails. -/
def noRfbScreen : Environment :=
  { allGood with rfbGetScreenReturns := false }

/-- A configuration with no stored background colour. -/
def defaultConfiguration : WaylandPortalVncConfiguration :=
  { storedBackgroundColor := none }

/-- The call sequence suspend (display opens), resume (display cannot be
opened), suspend (display opens), resume (display opens). -/
def failedResumeCalls : List (Call × Bool) :=
  [(Call.disable, true), (Call.enable, false), (Call.disable, true), (Call.enable, true)]

/-- The state reached from `m` on the X11 backend after the first `k` calls
of `failedResumeCalls`. -/
def failedResumeState (k : Nat) (m : Machine) : Machine :=
  run false m (failedResumeCalls.take k)

/-! ## Theorems -/

/-! ## Lemmas on the Xlib model -/

theorem KeyCode_of_valid (d : Display) (h : d.Valid) :
    KeyCode (d.min_keycode : Int) = d.min_keycode := by
  unfold Display.Valid at h
  unfold KeyCode
  omega

theorem getD_range_map (f : Nat → KeySym) (n i : Nat) (h : i < n) :
    ((List.range n).map f).getD i NoSymbol = f i := by
  simp [List.getD, List.getElem?_map, List.getElem?_range h]

theorem row_index (w k j : Nat) (hj : j < w) :
    (k * w + j) / w = k ∧ (k * w + j) % w = j := by
  have hw : 0 < w := by omega
  constructor
  · rw [Nat.mul_comm, Nat.mul_add_div hw, Nat.div_eq_of_lt hj, Nat.add_zero]
  · rw [Nat.mul_comm, Nat.mul_add_mod, Nat.mod_eq_of_lt hj]

/-- Reading slot `j` of the row of keycode `kc` back out of a table fetched
for the keycodes `first .. first + count - 1`. -/
theorem XGetKeyboardMapping_getD (d : Display) (first kc j : Nat) (count : Int)
    (h1 : first ≤ kc) (h2 : (kc : Int) < (first : Int) + count)
    (hj : j < d.keysyms_per_keycode) :
    (XGetKeyboardMapping d first count).1.getD
        ((((kc : Int) - (first : Int)) * (d.keysyms_per_keycode : Int) + (j : Int)).toNat)
        NoSymbol
      = d.keysyms kc j := by
  have hidx : (((kc : Int) - (first : Int)) * (d.keysyms_per_keycode : Int) + (j : Int)).toNat
      = (kc - first) * d.keysyms_per_keycode + j := by
    have : ((kc : Int) - (first : Int)) = ((kc - first : Nat) : Int) := by omega
    rw [this]
    norm_cast
  rw [hidx]
  unfold XGetKeyboardMapping
  have hlt : (kc - first) * d.keysyms_per_keycode + j
      < count.toNat * d.keysyms_per_keycode := by
    have hk : kc - first + 1 ≤ count.toNat := by omega
    calc (kc - first) * d.keysyms_per_keycode + j
        < (kc - first) * d.keysyms_per_keycode + d.keysyms_per_keycode := by omega
      _ = (kc - first + 1) * d.keysyms_per_keycode := by ring
      _ ≤ count.toNat * d.keysyms_per_keycode := Nat.mul_le_mul_right _ hk
  simp only []
  rw [getD_range_map _ _ _ hlt]
  obtain ⟨e1, e2⟩ := row_index d.keysyms_per_keycode (kc - first) j hj
  rw [e1, e2]
  congr 1
  omega

/-- What a successful `setEmptyKeyMapTable` leaves behind. -/
theorem setEmptyKeyMapTable_opened (m : Machine) (hv : m.display.Valid) :
    (setEmptyKeyMapTable true m).self.m_origKeyTable
        = some (XGetKeyboardMapping m.display m.display.min_keycode
            ((m.display.max_keycode : Int) - (m.display.min_keycode : Int))).1 ∧
      (setEmptyKeyMapTable true m).self.m_keyCodeMin = (m.display.min_keycode : Int) ∧
      (setEmptyKeyMapTable true m).self.m_keyCodeMax = (m.display.max_keycode : Int) ∧
      (setEmptyKeyMapTable true m).self.m_keyCodeCount
        = (m.display.max_keycode : Int) - (m.display.min_keycode : Int) ∧
      (setEmptyKeyMapTable true m).self.m_keySymsPerKeyCode
        = (m.display.keysyms_per_keycode : Int) ∧
      (setEmptyKeyMapTable true m).self.m_inputDevicesDisabled
        = m.self.m_inputDevicesDisabled ∧
      (setEmptyKeyMapTable true m).display
        = XChangeKeyboardMapping m.display (m.display.min_keycode : Int)
            (m.display.keysyms_per_keycode : Int)
            (zeroKeyTable (((m.display.max_keycode : Int) - (m.display.min_keycode : Int))
                * (m.display.keysyms_per_keycode : Int))
              (XGetKeyboardMapping m.display m.display.min_keycode
                ((m.display.max_keycode : Int) - (m.display.min_keycode : Int))).1)
            ((m.display.max_keycode : Int) - (m.display.min_keycode : Int)) := by
  simp [setEmptyKeyMapTable, XDisplayKeycodes, KeyCode_of_valid m.display hv,
    XGetKeyboardMapping]

theorem XChangeKeyboardMapping_lookup_same_width (d : Display) (first count : Int)
    (t : List KeySym) (kc j : Nat) :
    (XChangeKeyboardMapping d first (d.keysyms_per_keycode : Int) t count).lookup kc j
      = if first ≤ (kc : Int) ∧ (kc : Int) < first + count then
          if j < d.keysyms_per_keycode then
            t.getD ((((kc : Int) - first) * (d.keysyms_per_keycode : Int) + (j : Int)).toNat)
              NoSymbol
          else NoSymbol
        else d.lookup kc j := by
  unfold XChangeKeyboardMapping Display.lookup
  simp only [Int.toNat_ofNat, max_self, Nat.cast_lt]
  by_cases hj : j < d.keysyms_per_keycode
  · simp only [hj, if_true]
  · simp only [hj, if_false, ite_self]

theorem XChangeKeyboardMapping_same_width (d : Display) (first count : Int)
    (t : List KeySym) :
    (XChangeKeyboardMapping d first (d.keysyms_per_keycode : Int) t count).keysyms_per_keycode
      = d.keysyms_per_keycode := by
  simp [XChangeKeyboardMapping]

theorem XChangeKeyboardMapping_range (d : Display) (first k count : Int) (t : List KeySym) :
    (XChangeKeyboardMapping d first k t count).min_keycode = d.min_keycode ∧
      (XChangeKeyboardMapping d first k t count).max_keycode = d.max_keycode := by
  simp [XChangeKeyboardMapping]

/-- The state after a successful suspend from the enabled state. -/
theorem disableInputDevices_opened (m : Machine) (hv : m.display.Valid)
    (hen : m.self.m_inputDevicesDisabled = false) :
    (disableInputDevices false true m).self.m_inputDevicesDisabled = true ∧
      (disableInputDevices false true m).self.m_origKeyTable
        = some (XGetKeyboardMapping m.display m.display.min_keycode
            ((m.display.max_keycode : Int) - (m.display.min_keycode : Int))).1 ∧
      (disableInputDevices false true m).self.m_keyCodeMin = (m.display.min_keycode : Int) ∧
      (disableInputDevices false true m).self.m_keyCodeCount
        = (m.display.max_keycode : Int) - (m.display.min_keycode : Int) ∧
      (disableInputDevices false true m).self.m_keySymsPerKeyCode
        = (m.display.keysyms_per_keycode : Int) ∧
      (disableInputDevices false true m).display
        = XChangeKeyboardMapping m.display (m.display.min_keycode : Int)
            (m.display.keysyms_per_keycode : Int)
            (zeroKeyTable (((m.display.max_keycode : Int) - (m.display.min_keycode : Int))
                * (m.display.keysyms_per_keycode : Int))
              (XGetKeyboardMapping m.display m.display.min_keycode
                ((m.display.max_keycode : Int) - (m.display.min_keycode : Int))).1)
            ((m.display.max_keycode : Int) - (m.display.min_keycode : Int)) := by
  obtain ⟨h1, h2, _, h4, h5, _, h7⟩ := setEmptyKeyMapTable_opened m hv
  simp [disableInputDevices, hen, h1, h2, h4, h5, h7]

/-- The display after a successful resume of a suspended controller holding a
saved table. -/
theorem enableInputDevices_opened (m : Machine) (t : List KeySym)
    (hdis : m.self.m_inputDevicesDisabled = true) (ht : m.self.m_origKeyTable = some t) :
    (enableInputDevices false true m).display
        = XChangeKeyboardMapping m.display m.self.m_keyCodeMin m.self.m_keySymsPerKeyCode t
            m.self.m_keyCodeCount ∧
      (enableInputDevices false true m).self.m_origKeyTable = none ∧
      (enableInputDevices false true m).self.m_inputDevicesDisabled = false := by
  simp [enableInputDevices, restoreKeyMapTable, hdis, ht]

/-- C1: on the X11 backend, with the display reachable on both calls,
`disableInputDevices()` followed by `enableInputDevices()` leaves the keycode
range and the mapping width as they were and gives back, slot for slot, the
symbols of every keycode in the range the suspend queried (the
`m_keyCodeCount` keycodes starting at `m_keyCodeMin`). -/
theorem suspend_resume_roundtrip (m : Machine) (hv : m.display.Valid)
    (hen : m.self.m_inputDevicesDisabled = false) :
    (enableInputDevices false true (disableInputDevices false true m)).display.min_keycode
        = m.display.min_keycode ∧
      (enableInputDevices false true (disableInputDevices false true m)).display.max_keycode
        = m.display.max_keycode ∧
      (enableInputDevices false true
          (disableInputDevices false true m)).display.keysyms_per_keycode
        = m.display.keysyms_per_keycode ∧
      ∀ kc j : Nat,
        (disableInputDevices false true m).self.m_keyCodeMin ≤ (kc : Int) →
        (kc : Int) < (disableInputDevices false true m).self.m_keyCodeMin
                      + (disableInputDevices false true m).self.m_keyCodeCount →
        (enableInputDevices false true (disableInputDevices false true m)).display.lookup kc j
          = m.display.lookup kc j := by
  obtain ⟨h1, h2, h3, h4, h5, h6⟩ := disableInputDevices_opened m hv hen
  obtain ⟨e1, _, _⟩ := enableInputDevices_opened (disableInputDevices false true m) _ h1 h2
  rw [e1, h3, h4, h5, h6]
  have hw := XChangeKeyboardMapping_same_width m.display (m.display.min_keycode : Int)
    ((m.display.max_keycode : Int) - (m.display.min_keycode : Int))
    (zeroKeyTable (((m.display.max_keycode : Int) - (m.display.min_keycode : Int))
                * (m.display.keysyms_per_keycode : Int))
      (XGetKeyboardMapping m.display m.display.min_keycode
        ((m.display.max_keycode : Int) - (m.display.min_keycode : Int))).1)
  refine ⟨?_, ?_, ?_, ?_⟩
  · simp [XChangeKeyboardMapping_range]
  · simp [XChangeKeyboardMapping_range]
  · simp [XChangeKeyboardMapping]
  · intro kc j hlo hhi
    have hlo' : m.display.min_keycode ≤ kc := by omega
    generalize hd1 : XChangeKeyboardMapping m.display (m.display.min_keycode : Int)
      (m.display.keysyms_per_keycode : Int) _ _ = d1 at hw ⊢
    rw [← hw, XChangeKeyboardMapping_lookup_same_width, hw, if_pos ⟨hlo, hhi⟩]
    by_cases hj : j < m.display.keysyms_per_keycode
    · rw [if_pos hj, XGetKeyboardMapping_getD m.display m.display.min_keycode kc j _ hlo'
        (by omega) hj]
      simp [Display.lookup, hj]
    · simp [Display.lookup, hj]

/-- The round trip evaluated on `sampleMachine`. -/
theorem suspend_resume_roundtrip_witness :
    sampleMachine.display.Valid ∧ sampleMachine.self.m_inputDevicesDisabled = false ∧
      (enableInputDevices false true
          (disableInputDevices false true sampleMachine)).display.lookup 9 1
        = sampleMachine.display.lookup 9 1 :=
  ⟨by decide, rfl,
    (suspend_resume_roundtrip sampleMachine (by decide) rfl).2.2.2 9 1 (by decide) (by decide)⟩

/-- The zeroing loop overwrites exactly the first `n` entries. -/
theorem zeroKeyTable_getD (n : Int) (t : List KeySym) (i : Nat) :
    (zeroKeyTable n t).getD i NoSymbol = if i < n.toNat then NoSymbol else t.getD i NoSymbol := by
  unfold zeroKeyTable NoSymbol
  generalize n.toNat = k
  induction k with
  | zero => simp
  | succ k ih =>
    rw [List.range_succ, List.foldl_append]
    simp only [List.foldl_cons, List.foldl_nil]
    rw [List.getD_eq_getElem?_getD, List.getElem?_set]
    by_cases hik : k = i
    · subst hik
      simp
      split <;> rfl
    · simp only [hik, if_false]
      rw [← List.getD_eq_getElem?_getD, ih]
      by_cases h : i < k
      · simp [h, Nat.lt_succ_of_lt h]
      · have : ¬ i < k + 1 := by omega
        simp [h, this]

/-- After a successful suspend every slot of every keycode from `min_keycode`
up to, but not including, `max_keycode` holds the null symbol. -/
theorem disable_blanks_queried_range (m : Machine) (hv : m.display.Valid)
    (hen : m.self.m_inputDevicesDisabled = false) (kc j : Nat)
    (hlo : m.display.min_keycode ≤ kc) (hhi : kc < m.display.max_keycode) :
    (disableInputDevices false true m).display.lookup kc j = NoSymbol := by
  obtain ⟨_, _, _, _, _, h6⟩ := disableInputDevices_opened m hv hen
  rw [h6, XChangeKeyboardMapping_lookup_same_width, if_pos ⟨by omega, by omega⟩]
  by_cases hj : j < m.display.keysyms_per_keycode
  · rw [if_pos hj, zeroKeyTable_getD, if_pos]
    have hidx : (((kc : Int) - (m.display.min_keycode : Int))
          * (m.display.keysyms_per_keycode : Int) + (j : Int)).toNat
        = (kc - m.display.min_keycode) * m.display.keysyms_per_keycode + j := by
      have : ((kc : Int) - (m.display.min_keycode : Int))
          = ((kc - m.display.min_keycode : Nat) : Int) := by omega
      rw [this]
      norm_cast
    have hcnt : (((m.display.max_keycode : Int) - (m.display.min_keycode : Int))
          * (m.display.keysyms_per_keycode : Int)).toNat
        = (m.display.max_keycode - m.display.min_keycode) * m.display.keysyms_per_keycode := by
      have : ((m.display.max_keycode : Int) - (m.display.min_keycode : Int))
          = ((m.display.max_keycode - m.display.min_keycode : Nat) : Int) := by omega
      rw [this]
      norm_cast
    rw [hidx, hcnt]
    have hk : kc - m.display.min_keycode + 1 ≤ m.display.max_keycode - m.display.min_keycode := by
      omega
    calc (kc - m.display.min_keycode) * m.display.keysyms_per_keycode + j
        < (kc - m.display.min_keycode) * m.display.keysyms_per_keycode
            + m.display.keysyms_per_keycode := by omega
      _ = (kc - m.display.min_keycode + 1) * m.display.keysyms_per_keycode := by ring
      _ ≤ (m.display.max_keycode - m.display.min_keycode) * m.display.keysyms_per_keycode :=
          Nat.mul_le_mul_right _ hk
  · rw [if_neg hj]

/-- A successful suspend leaves the row of `max_keycode` exactly as it was:
the count passed to Xlib is `max - min`, one short of the full range. -/
theorem disable_keeps_max_keycode (m : Machine) (hv : m.display.Valid)
    (hen : m.self.m_inputDevicesDisabled = false) (j : Nat) :
    (disableInputDevices false true m).display.lookup m.display.max_keycode j
      = m.display.lookup m.display.max_keycode j := by
  obtain ⟨_, _, _, _, _, h6⟩ := disableInputDevices_opened m hv hen
  rw [h6, XChangeKeyboardMapping_lookup_same_width, if_neg (by omega)]

/-- C2: evaluation at the failing input.  On `sampleMachine` (a valid display
with keycodes 8..10, freshly constructed controller) a successful
`disableInputDevices()` blanks keycodes 8 and 9 but slot 0 of keycode 10, the
display's `max_keycode`, still holds its symbol 1001. -/
theorem blanking_misses_max_keycode :
    sampleMachine.display.Valid ∧
      sampleMachine.display.max_keycode = 10 ∧
      (disableInputDevices false true sampleMachine).self.m_inputDevicesDisabled = true ∧
      (disableInputDevices false true sampleMachine).display.lookup 8 0 = NoSymbol ∧
      (disableInputDevices false true sampleMachine).display.lookup 9 0 = NoSymbol ∧
      (disableInputDevices false true sampleMachine).display.lookup 10 0 = 1001 ∧
      (disableInputDevices false true sampleMachine).display.lookup 10 0 ≠ NoSymbol := by
  decide

/-! ### Idempotence of the two calls -/

theorem disableInputDevices_flag (wayland opens : Bool) (m : Machine) :
    (disableInputDevices wayland opens m).self.m_inputDevicesDisabled = true := by
  unfold disableInputDevices
  cases h : m.self.m_inputDevicesDisabled <;> simp [h]

theorem enableInputDevices_flag (wayland opens : Bool) (m : Machine) :
    (enableInputDevices wayland opens m).self.m_inputDevicesDisabled = false := by
  unfold enableInputDevices
  cases h : m.self.m_inputDevicesDisabled <;> simp [h]

theorem disableInputDevices_idem (wayland o1 o2 : Bool) (m : Machine) :
    disableInputDevices wayland o2 (disableInputDevices wayland o1 m)
      = disableInputDevices wayland o1 m := by
  have h := disableInputDevices_flag wayland o1 m
  generalize disableInputDevices wayland o1 m = m1 at h ⊢
  simp [disableInputDevices, h]

theorem enableInputDevices_idem (wayland o1 o2 : Bool) (m : Machine) :
    enableInputDevices wayland o2 (enableInputDevices wayland o1 m)
      = enableInputDevices wayland o1 m := by
  have h := enableInputDevices_flag wayland o1 m
  generalize enableInputDevices wayland o1 m = m1 at h ⊢
  simp [enableInputDevices, h]

theorem step_idem (wayland o1 o2 : Bool) (c : Call) (m : Machine) :
    step wayland (step wayland m (c, o1)) (c, o2) = step wayland m (c, o1) := by
  cases c
  · exact disableInputDevices_idem wayland o1 o2 m
  · exact enableInputDevices_idem wayland o1 o2 m

theorem run_collapse (wayland : Bool) :
    ∀ (cs : List Call) (m : Machine),
      run wayland m (reachable cs) = run wayland m (reachable (collapse cs))
  | [], _ => rfl
  | [_], _ => rfl
  | c :: c' :: cs, m => by
    unfold collapse
    by_cases h : c = c'
    · subst h
      rw [if_pos rfl, ← run_collapse wayland (c :: cs) m]
      simp only [run, reachable, List.map_cons, List.foldl_cons, step_idem]
    · rw [if_neg h]
      have ih := run_collapse wayland (c' :: cs) (step wayland m (c, true))
      simpa only [run, reachable, List.map_cons, List.foldl_cons] using ih

/-- C3: with the display always reachable, a sequence of
`disableInputDevices()`/`enableInputDevices()` calls leaves the controller
(flag, saved table and dimensions) and the display in the same state as the
sequence with consecutive duplicates collapsed, on either backend and from any
state; in particular suspend, suspend, resume equals suspend, resume, a
repeated call changes nothing at all, and a second suspend leaves the saved
table as the first one captured it. -/
theorem collapse_duplicates (wayland : Bool) (m : Machine) :
    (∀ cs : List Call,
        run wayland m (reachable cs) = run wayland m (reachable (collapse cs))) ∧
      run wayland m (reachable [Call.disable, Call.disable, Call.enable])
        = run wayland m (reachable [Call.disable, Call.enable]) ∧
      disableInputDevices wayland true (disableInputDevices wayland true m)
        = disableInputDevices wayland true m ∧
      enableInputDevices wayland true (enableInputDevices wayland true m)
        = enableInputDevices wayland true m ∧
      (disableInputDevices wayland true (disableInputDevices wayland true m)).self.m_origKeyTable
        = (disableInputDevices wayland true m).self.m_origKeyTable := by
  refine ⟨fun cs => run_collapse wayland cs m, ?_, ?_, ?_, ?_⟩
  · exact run_collapse wayland [Call.disable, Call.disable, Call.enable] m
  · exact disableInputDevices_idem wayland true true m
  · exact enableInputDevices_idem wayland true true m
  · rw [disableInputDevices_idem]

/-- The collapsing of duplicates on a sample sequence. -/
theorem collapse_sample :
    collapse [Call.disable, Call.disable, Call.enable, Call.enable, Call.enable, Call.disable]
      = [Call.disable, Call.enable, Call.disable] := by
  decide

/-! ### Saved table and suspended flag -/

theorem step_preserves_snapshot_iff (m : Machine) (c : Call)
    (h : SnapshotIffSuspended m) : SnapshotIffSuspended (step false m (c, true)) := by
  unfold SnapshotIffSuspended at h ⊢
  cases c
  · simp only [step, disableInputDevices]
    cases hf : m.self.m_inputDevicesDisabled
    · simp [setEmptyKeyMapTable, XDisplayKeycodes, XGetKeyboardMapping]
    · simpa [hf] using h
  · simp only [step, enableInputDevices]
    cases hf : m.self.m_inputDevicesDisabled
    · simpa [hf] using h
    · simp only [hf] at h
      cases ht : m.self.m_origKeyTable with
      | none => simp [ht] at h
      | some t => simp [restoreKeyMapTable, ht]

theorem run_preserves_snapshot_iff :
    ∀ (cs : List Call) (m : Machine), SnapshotIffSuspended m →
      SnapshotIffSuspended (run false m (reachable cs))
  | [], _, h => h
  | c :: cs, m, h => by
    have ih := run_preserves_snapshot_iff cs (step false m (c, true))
      (step_preserves_snapshot_iff m c h)
    simpa only [run, reachable, List.map_cons, List.foldl_cons] using ih

/-- C4, the claim refuted: a fresh controller whose first
`disableInputDevices()` cannot open the display ends up marked suspended with
no saved table. -/
theorem snapshot_iff_suspended_fails :
    (run false sampleMachine [(Call.disable, false)]).self.m_inputDevicesDisabled = true ∧
      (run false sampleMachine [(Call.disable, false)]).self.m_origKeyTable = none ∧
      ¬ SnapshotIffSuspended (run false sampleMachine [(Call.disable, false)]) := by
  decide

/-- C4 as amended: on the X11 backend, for a freshly constructed controller on
any display and any sequence of `disableInputDevices()`/`enableInputDevices()`
calls in which every attempt to open the display succeeds, a saved table is
held exactly when input is marked suspended. -/
theorem snapshot_iff_suspended_reachable (d : Display) (cs : List Call) :
    SnapshotIffSuspended
      (run false { self := LinuxInputDeviceFunctions.initial, display := d } (reachable cs)) := by
  apply run_preserves_snapshot_iff
  simp [SnapshotIffSuspended, LinuxInputDeviceFunctions.initial]

/-! ## Keystroke injection -/

theorem mid_one (s : QString) (i : Nat) (h : i < s.length) :
    QString.mid s i 1 = [s.get ⟨i, h⟩] := by
  unfold QString.mid
  rw [List.drop_eq_getElem_cons h]
  rfl

/-- The text units of `sendString`: one per UTF-16 code unit, in order. -/
theorem sendStringUnits_eq_map (s : QString) :
    sendStringUnits s = s.map (fun u => QString.toUtf8 [u]) := by
  unfold sendStringUnits
  apply List.ext_getElem
  · simp
  · intro i h1 h2
    simp only [List.getElem_map, List.getElem_range]
    have hi : i < s.length := by simpa using h1
    rw [mid_one s i hi]
    simp

theorem isHighSurrogate_imp (u : Nat) (h : isSurrogate u = false) :
    isHighSurrogate u = false := by
  unfold isSurrogate at h
  unfold isHighSurrogate
  simp only [Bool.and_eq_false_imp, decide_eq_true_eq, decide_eq_false_iff_not] at h ⊢
  omega

theorem codePoints_of_no_surrogate :
    ∀ s : QString, (∀ u ∈ s, isSurrogate u = false) → codePoints s = s
  | [], _ => rfl
  | [_], _ => rfl
  | u :: v :: rest, h => by
    have hu : isHighSurrogate u = false := isHighSurrogate_imp u (h u (by simp))
    have ih := codePoints_of_no_surrogate (v :: rest)
      (fun w hw => h w (List.mem_cons_of_mem _ hw))
    simp [codePoints, hu, ih]

/-- C5, the claim refuted: for the string holding the single code point
U+1F600 (the surrogate pair D83D DE00) `sendString` passes on two text units,
none of them the UTF-8 encoding F0 9F 98 80 of the code point. -/
theorem one_unit_per_code_point_fails :
    codePoints [0xD83D, 0xDE00] = [0x1F600] ∧
      (sendStringUnits [0xD83D, 0xDE00]).length = 2 ∧
      utf8Encode 0x1F600 ∉ sendStringUnits [0xD83D, 0xDE00] ∧
      ¬ OneUnitPerCodePoint [0xD83D, 0xDE00] := by
  decide

/-- C5 as amended: `sendString` passes on exactly one text unit per UTF-16
code unit of the string, in order, each the UTF-8 conversion of the
one-unit string; when the string holds no surrogate code unit (all its
characters lie in the Basic Multilingual Plane) that is one unit per code
point, each the UTF-8 encoding of that code point, and the number of
`pressAndReleaseKey` calls is the number of code points. -/
theorem one_unit_per_code_unit (s : QString) :
    sendStringUnits s = s.map (fun u => QString.toUtf8 [u]) ∧
      (sendStringUnits s).length = s.length ∧
      ((∀ u ∈ s, isSurrogate u = false) → OneUnitPerCodePoint s) := by
  refine ⟨sendStringUnits_eq_map s, by simp [sendStringUnits], ?_⟩
  intro h
  unfold OneUnitPerCodePoint
  rw [codePoints_of_no_surrogate s h, sendStringUnits_eq_map]
  refine ⟨?_, by simp⟩
  apply List.map_congr_left
  intro u hu
  simp [QString.toUtf8, h u hu]

/-- The amended statement evaluated on the string `a é €`. -/
theorem one_unit_per_code_unit_witness :
    (∀ u ∈ [0x61, 0xE9, 0x20AC], isSurrogate u = false) ∧
      OneUnitPerCodePoint [0x61, 0xE9, 0x20AC] ∧
      sendStringUnits [0x61, 0xE9, 0x20AC] = [[0x61], [0xC3, 0xA9], [0xE2, 0x82, 0xAC]] :=
  ⟨by decide, (one_unit_per_code_unit [0x61, 0xE9, 0x20AC]).2.2 (by decide), by decide⟩

theorem flatMap_pressAndReleaseKey (self : LinuxKeyboardInput)
    (hx : self.m_isWayland = false) (hb : self.m_fakeKeyHandle = true) (units : List QByteArray) :
    units.flatMap (fun unit => pressAndReleaseKey self (Key.utf8Data unit))
      = units.flatMap (fun unit =>
          [FakeKeyCall.fakekey_press unit (unit.length : Int) 0, FakeKeyCall.fakekey_release]) := by
  congr 1
  funext unit
  simp [pressAndReleaseKey, pressAndReleaseKeyX11, hx, hb]

/-- C6: on the X11 backend with a bound handle the libfakekey calls of
`sendString` are, for each text unit in string order, one `fakekey_press` of
that unit immediately followed by one `fakekey_release` and nothing else; the
empty string gives no call and `ab` gives press `a`, release, press `b`,
release. -/
theorem sendString_trace (self : LinuxKeyboardInput)
    (hx : self.m_isWayland = false) (hb : self.m_fakeKeyHandle = true) (s : QString) :
    sendString self s
        = (sendStringUnits s).flatMap (fun unit =>
            [FakeKeyCall.fakekey_press unit (unit.length : Int) 0, FakeKeyCall.fakekey_release]) ∧
      sendString self [] = [] ∧
      sendString self [0x61, 0x62]
        = [FakeKeyCall.fakekey_press [0x61] 1 0, FakeKeyCall.fakekey_release,
           FakeKeyCall.fakekey_press [0x62] 1 0, FakeKeyCall.fakekey_release] := by
  refine ⟨flatMap_pressAndReleaseKey self hx hb _, rfl, ?_⟩
  unfold sendString
  rw [flatMap_pressAndReleaseKey self hx hb]
  decide

/-- The trace of `sendString` evaluated on the object the constructor
builds when the display opens and the handle binds. -/
theorem sendString_trace_witness :
    boundX11.m_isWayland = false ∧ boundX11.m_fakeKeyHandle = true ∧
      sendString boundX11 [0x61, 0x62]
        = [FakeKeyCall.fakekey_press [0x61] 1 0, FakeKeyCall.fakekey_release,
           FakeKeyCall.fakekey_press [0x62] 1 0, FakeKeyCall.fakekey_release] :=
  ⟨rfl, rfl, (sendString_trace boundX11 rfl rfl [0x61, 0x62]).2.2⟩

/-- C10: `pressAndReleaseKey`, for a key symbol as for a UTF-8 text unit,
makes no libfakekey call when the handle is unbound on the X11 backend and
none at all on the Wayland backend, where the constructor calls neither
`XOpenDisplay` nor `fakekey_init` and leaves both pointers null; with the
handle bound on the X11 backend it makes exactly one press followed by one
release. -/
theorem pressAndReleaseKey_dispatch :
    (∀ (display : Bool) (key : Key),
        pressAndReleaseKey
          { m_isWayland := false, m_display := display, m_fakeKeyHandle := false } key = []) ∧
      (∀ (display handle : Bool) (key : Key),
        pressAndReleaseKey
          { m_isWayland := true, m_display := display, m_fakeKeyHandle := handle } key = []) ∧
      (∀ displayOpens handleBinds : Bool,
        LinuxKeyboardInput.construct true displayOpens handleBinds
          = ({ m_isWayland := true, m_display := false, m_fakeKeyHandle := false }, [])) ∧
      (∀ (displayOpens handleBinds : Bool) (key : Key),
        pressAndReleaseKey (LinuxKeyboardInput.construct true displayOpens handleBinds).1 key
          = []) ∧
      (∀ (handleBinds : Bool) (key : Key),
        pressAndReleaseKey (LinuxKeyboardInput.construct false false handleBinds).1 key = [] ∧
        pressAndReleaseKey (LinuxKeyboardInput.construct false true false).1 key = []) ∧
      (∀ (display : Bool) (keysym : Nat),
        pressAndReleaseKey
          { m_isWayland := false, m_display := display, m_fakeKeyHandle := true }
          (Key.keysym keysym)
          = [FakeKeyCall.fakekey_press_keysym keysym 0, FakeKeyCall.fakekey_release]) ∧
      (∀ (display : Bool) (utf8Data : QByteArray),
        pressAndReleaseKey
          { m_isWayland := false, m_display := display, m_fakeKeyHandle := true }
          (Key.utf8Data utf8Data)
          = [FakeKeyCall.fakekey_press utf8Data (utf8Data.length : Int) 0,
             FakeKeyCall.fakekey_release]) := by
  refine ⟨?_, ?_, ?_, ?_, ?_, ?_, ?_⟩
  · intro display key
    simp [pressAndReleaseKey, pressAndReleaseKeyX11]
  · intro display handle key
    simp [pressAndReleaseKey, pressAndReleaseKeyWayland]
  · intro displayOpens handleBinds
    simp [LinuxKeyboardInput.construct]
  · intro displayOpens handleBinds key
    simp [LinuxKeyboardInput.construct, pressAndReleaseKey, pressAndReleaseKeyWayland]
  · intro handleBinds key
    simp [LinuxKeyboardInput.construct, pressAndReleaseKey, pressAndReleaseKeyX11]
  · intro display keysym
    simp [pressAndReleaseKey, pressAndReleaseKeyX11]
  · intro display utf8Data
    simp [pressAndReleaseKey, pressAndReleaseKeyX11]

/-! ## Portal handshake and server start-up -/

/-- The portal calls of a `runServer` call on a freshly constructed server,
spelled out by cases on the environment. -/
theorem runServer_portalCalls (config : WaylandPortalVncConfiguration) (env : Environment)
    (serverPort : Int) (password : Password) :
    (runServer (WaylandPortalVncServer.construct config) env serverPort password).portalCalls
      = if env.screenCastValid = false then []
        else if env.createSessionReply.isSome = false then [PortalCall.CreateSession]
        else if env.rfbGetScreenReturns = false then [PortalCall.CreateSession]
        else if env.screenCastValidAtStart = false then [PortalCall.CreateSession]
        else if env.selectSourcesReplyValid = false then
          [PortalCall.CreateSession, PortalCall.SelectSources]
        else [PortalCall.CreateSession, PortalCall.SelectSources, PortalCall.Start] := by
  rcases env with ⟨a, b, c, d, e, f, g⟩
  cases a <;> cases b <;> cases c <;> cases d <;> cases e <;> cases f <;>
    simp [runServer, initPortalSession, initScreen, initVncServer, startScreenCast,
      WaylandPortalVncServer.construct]

/-- C7: for every assignment of success or failure to the interface checks
and to the replies of `CreateSession`, `SelectSources` and `Start`, the portal
calls issued by `runServer()` on a freshly constructed server form an initial
segment of CreateSession, SelectSources, Start; `SelectSources` is issued only
when `CreateSession` returned a valid reply, `Start` only when `SelectSources`
did, and a failed step is followed by no later-stage call. -/
theorem portal_calls_monotonic (config : WaylandPortalVncConfiguration) (env : Environment)
    (serverPort : Int) (password : Password) :
    ((runServer (WaylandPortalVncServer.construct config) env serverPort password).portalCalls
        <+: [PortalCall.CreateSession, PortalCall.SelectSources, PortalCall.Start]) ∧
      (PortalCall.CreateSession ∈
          (runServer (WaylandPortalVncServer.construct config) env serverPort password).portalCalls
        → env.screenCastValid = true) ∧
      (PortalCall.SelectSources ∈
          (runServer (WaylandPortalVncServer.construct config) env serverPort password).portalCalls
        → env.screenCastValid = true ∧ env.createSessionReply.isSome = true) ∧
      (PortalCall.Start ∈
          (runServer (WaylandPortalVncServer.construct config) env serverPort password).portalCalls
        → PortalCall.SelectSources ∈
            (runServer (WaylandPortalVncServer.construct config) env serverPort
              password).portalCalls
          ∧ env.selectSourcesReplyValid = true) ∧
      (env.screenCastValid = false →
        (runServer (WaylandPortalVncServer.construct config) env serverPort password).portalCalls
          = []) ∧
      (env.createSessionReply = none →
        PortalCall.SelectSources ∉
            (runServer (WaylandPortalVncServer.construct config) env serverPort
              password).portalCalls
          ∧ PortalCall.Start ∉
            (runServer (WaylandPortalVncServer.construct config) env serverPort
              password).portalCalls) ∧
      (env.selectSourcesReplyValid = false →
        PortalCall.Start ∉
          (runServer (WaylandPortalVncServer.construct config) env serverPort
            password).portalCalls) := by
  rw [runServer_portalCalls]
  rcases env with ⟨a, b, c, d, e, f, g⟩
  cases a <;> cases b <;> cases c <;> cases d <;> cases e <;> cases f <;>
    simp

/-- The handshake order evaluated where every step succeeds. -/
theorem portal_calls_monotonic_witness :
    PortalCall.Start ∈
        (runServer (WaylandPortalVncServer.construct defaultConfiguration) allGood 5900
          [115]).portalCalls ∧
      allGood.selectSourcesReplyValid = true :=
  ⟨by decide,
    ((portal_calls_monotonic defaultConfiguration allGood 5900 [115]).2.2.2.1 (by decide)).2⟩

/-- C8: when `initPortalSession()` fails on a freshly constructed server (the
ScreenCast interface is not available, or `CreateSession` is refused),
`runServer()` goes on: it issues no `SelectSources` and no `Start`, sets up
the 1920x1080 image and asks libvncserver for a screen of that size; and once
`rfbGetScreen` has returned the screen, the RFB server is initialised and the
main loop is entered with a framebuffer of 1920x1080 whose every pixel is the
configured background colour, black when none is configured, which the loop
body leaves unchanged. -/
theorem headless_fallback (config : WaylandPortalVncConfiguration) (env : Environment)
    (serverPort : Int) (password : Password)
    (hfail : (initPortalSession (WaylandPortalVncServer.construct config) env).1 = false) :
    PortalCall.SelectSources ∉
        (runServer (WaylandPortalVncServer.construct config) env serverPort password).portalCalls ∧
      PortalCall.Start ∉
        (runServer (WaylandPortalVncServer.construct config) env serverPort password).portalCalls ∧
      (runServer (WaylandPortalVncServer.construct config) env serverPort password).rfbCalls.head?
        = some (RfbCall.rfbGetScreen 1920 1080 8 3 4) ∧
      (env.rfbGetScreenReturns = true →
        ∃ (screen : WaylandVncScreen) (rfbScreen : rfbScreenInfo),
          (runServer (WaylandPortalVncServer.construct config) env serverPort password).outcome
              = Outcome.mainLoop screen ∧
            screen.rfbScreen = some rfbScreen ∧
            RfbCall.rfbInitServer ∈
              (runServer (WaylandPortalVncServer.construct config) env serverPort
                password).rfbCalls ∧
            screen.framebuffer.width = 1920 ∧ screen.framebuffer.height = 1080 ∧
            rfbScreen.width = 1920 ∧ rfbScreen.height = 1080 ∧
            rfbScreen.frameBuffer = screen.framebuffer.pixel ∧
            (∀ x y : Nat, rfbScreen.frameBuffer x y = config.backgroundColor) ∧
            (config.storedBackgroundColor = none →
              ∀ x y : Nat, rfbScreen.frameBuffer x y = Qt.black) ∧
            mainLoopBody
              (runServer (WaylandPortalVncServer.construct config) env serverPort password).self
              screen = screen) := by
  rcases env with ⟨a, b, c, d, e, f, g⟩
  cases a <;> cases b <;> cases f <;>
    simp_all [runServer, initPortalSession, initScreen, initVncServer, startScreenCast,
      WaylandPortalVncServer.construct, DefaultFramebufferWidth, DefaultFramebufferHeight,
      QImage.create, QImage.fill, WaylandVncScreen.default, mainLoopBody,
      processScreenCastFrames, WaylandPortalVncConfiguration.backgroundColor]

/-- The fallback evaluated without a portal service and with the default
configuration: the loop is entered and the pixel at (7, 3) is black. -/
theorem headless_fallback_witness :
    (initPortalSession (WaylandPortalVncServer.construct defaultConfiguration) noBroker).1 = false ∧
      noBroker.rfbGetScreenReturns = true ∧
      ∃ (screen : WaylandVncScreen) (rfbScreen : rfbScreenInfo),
        (runServer (WaylandPortalVncServer.construct defaultConfiguration) noBroker 5900
            [115]).outcome = Outcome.mainLoop screen ∧
          screen.rfbScreen = some rfbScreen ∧
          rfbScreen.frameBuffer 7 3 = Qt.black := by
  refine ⟨rfl, rfl, ?_⟩
  obtain ⟨screen, rfbScreen, h1, h2, _, _, _, _, _, _, _, h10, _⟩ :=
    (headless_fallback defaultConfiguration noBroker 5900 [115] rfl).2.2.2 rfl
  exact ⟨screen, rfbScreen, h1, h2, h10 rfl 7 3⟩

/-- C9: when `rfbGetScreen` returns no screen, `runServer()` on a freshly
constructed server returns `false` and never enters its main loop, neither
`SelectSources` nor `Start` is issued and `rfbInitServer` is not called,
whatever the portal session initialisation did before. -/
theorem rfb_allocation_failure (config : WaylandPortalVncConfiguration) (env : Environment)
    (serverPort : Int) (password : Password) (hfail : env.rfbGetScreenReturns = false) :
    (runServer (WaylandPortalVncServer.construct config) env serverPort
        password).outcome.returnValue = some false ∧
      (runServer (WaylandPortalVncServer.construct config) env serverPort
        password).outcome.entersLoop = false ∧
      PortalCall.SelectSources ∉
        (runServer (WaylandPortalVncServer.construct config) env serverPort password).portalCalls ∧
      PortalCall.Start ∉
        (runServer (WaylandPortalVncServer.construct config) env serverPort password).portalCalls ∧
      (runServer (WaylandPortalVncServer.construct config) env serverPort password).rfbCalls
        = [RfbCall.rfbGetScreen 1920 1080 8 3 4] := by
  rcases env with ⟨a, b, c, d, e, f, g⟩
  cases a <;> cases b <;>
    simp_all [runServer, initPortalSession, initScreen, initVncServer, startScreenCast,
      WaylandPortalVncServer.construct, DefaultFramebufferWidth, DefaultFramebufferHeight,
      QImage.create, QImage.fill, WaylandVncScreen.default, Outcome.returnValue,
      Outcome.entersLoop]

/-- The allocation failure evaluated where the portal handshake would
succeed. -/
theorem rfb_allocation_failure_witness :
    noRfbScreen.rfbGetScreenReturns = false ∧
      (runServer (WaylandPortalVncServer.construct defaultConfiguration) noRfbScreen 5900
        [115]).outcome.returnValue = some false ∧
      (runServer (WaylandPortalVncServer.construct defaultConfiguration) noRfbScreen 5900
        [115]).portalCalls = [PortalCall.CreateSession] :=
  ⟨rfl, (rfb_allocation_failure defaultConfiguration noRfbScreen 5900 [115] rfl).1, by decide⟩

/-! ## Suspend and resume when the display cannot be opened -/

/-- C11: on the X11 backend, from the not-suspended state with no saved table,
a `disableInputDevices()` whose `XOpenDisplay` fails leaves the display as it
was, saves no table and sets the suspended flag, changing nothing else; a
following `disableInputDevices()` then changes nothing, and a following
`enableInputDevices()` clears the flag and leaves the display as it was,
whether or not the display can be opened by then, so that the object is back
in its starting state. -/
theorem failed_suspend_toggles_flag (m : Machine)
    (hen : m.self.m_inputDevicesDisabled = false) (hnone : m.self.m_origKeyTable = none) :
    (disableInputDevices false false m).display = m.display ∧
      (disableInputDevices false false m).self.m_origKeyTable = none ∧
      (disableInputDevices false false m).self.m_inputDevicesDisabled = true ∧
      disableInputDevices false false m
        = { m with self := { m.self with m_inputDevicesDisabled := true } } ∧
      (∀ opens : Bool,
        disableInputDevices false opens (disableInputDevices false false m)
          = disableInputDevices false false m) ∧
      (∀ opens : Bool,
        (enableInputDevices false opens (disableInputDevices false false m)).display
            = m.display ∧
          (enableInputDevices false opens
            (disableInputDevices false false m)).self.m_inputDevicesDisabled = false ∧
          (enableInputDevices false opens
            (disableInputDevices false false m)).self.m_origKeyTable = none ∧
          enableInputDevices false opens (disableInputDevices false false m) = m) := by
  rcases m with ⟨⟨flag, table, kmin, kmax, kcount, kper⟩, d⟩
  simp only at hen hnone
  subst hen hnone
  refine ⟨rfl, rfl, rfl, rfl, ?_, ?_⟩
  · intro opens
    rfl
  · intro opens
    cases opens <;> exact ⟨rfl, rfl, rfl, rfl⟩

/-- The failed suspend evaluated on `sampleMachine`: the flag is set, no
table is saved and slot 1 of keycode 9 still holds 902. -/
theorem failed_suspend_toggles_flag_witness :
    sampleMachine.self.m_inputDevicesDisabled = false ∧
      sampleMachine.self.m_origKeyTable = none ∧
      (disableInputDevices false false sampleMachine).self.m_inputDevicesDisabled = true ∧
      (disableInputDevices false false sampleMachine).self.m_origKeyTable = none ∧
      (disableInputDevices false false sampleMachine).display.lookup 9 1 = 902 ∧
      (enableInputDevices false true
        (disableInputDevices false false sampleMachine)).display.lookup 9 1 = 902 :=
  ⟨rfl, rfl, (failed_suspend_toggles_flag sampleMachine rfl rfl).2.2.1,
    (failed_suspend_toggles_flag sampleMachine rfl rfl).2.1, by decide, by decide⟩

/-- A resume that cannot open the display only clears the flag. -/
theorem enableInputDevices_unreachable (m : Machine)
    (hdis : m.self.m_inputDevicesDisabled = true) :
    enableInputDevices false false m
      = { m with self := { m.self with m_inputDevicesDisabled := false } } := by
  simp [enableInputDevices, restoreKeyMapTable, hdis]

/-- A successful suspend keeps the keycode range and the width of the
mapping. -/
theorem disableInputDevices_dimensions (m : Machine) (hv : m.display.Valid)
    (hen : m.self.m_inputDevicesDisabled = false) :
    (disableInputDevices false true m).display.min_keycode = m.display.min_keycode ∧
      (disableInputDevices false true m).display.max_keycode = m.display.max_keycode ∧
      (disableInputDevices false true m).display.keysyms_per_keycode
        = m.display.keysyms_per_keycode ∧
      (disableInputDevices false true m).display.Valid := by
  obtain ⟨_, _, _, _, _, h6⟩ := disableInputDevices_opened m hv hen
  rw [h6]
  unfold Display.Valid at hv ⊢
  simp only [XChangeKeyboardMapping, Int.toNat_ofNat, max_self]
  exact ⟨trivial, trivial, trivial, hv⟩

/-- A table fetched from a range whose slots all hold the null symbol holds
nothing but null symbols. -/
theorem XGetKeyboardMapping_blank (d : Display) (first : Nat) (count : Int)
    (hblank : ∀ kc j : Nat, first ≤ kc → (kc : Int) < (first : Int) + count →
      d.lookup kc j = NoSymbol) :
    ∀ x ∈ (XGetKeyboardMapping d first count).1, x = NoSymbol := by
  intro x hx
  unfold XGetKeyboardMapping at hx
  simp only [List.mem_map, List.mem_range] at hx
  obtain ⟨i, hi, rfl⟩ := hx
  have hw : 0 < d.keysyms_per_keycode := by
    rcases Nat.eq_zero_or_pos d.keysyms_per_keycode with h0 | hpos
    · rw [h0] at hi
      simp at hi
    · exact hpos
  have hj : i % d.keysyms_per_keycode < d.keysyms_per_keycode := Nat.mod_lt _ hw
  have hk : i / d.keysyms_per_keycode < count.toNat := Nat.div_lt_of_lt_mul (by
    rw [Nat.mul_comm]
    exact hi)
  have hq : ((first + i / d.keysyms_per_keycode : Nat) : Int) < (first : Int) + count := by
    generalize i / d.keysyms_per_keycode = q at hk
    omega
  have h := hblank (first + i / d.keysyms_per_keycode) (i % d.keysyms_per_keycode)
    (Nat.le_add_right _ _) hq
  unfold Display.lookup at h
  rw [if_pos hj] at h
  exact h

/-- Suspend then resume, both reaching the display, gives every slot of the
keycodes from `min_keycode` up to `max_keycode - 1` its symbol back. -/
theorem disable_enable_lookup (m : Machine) (hv : m.display.Valid)
    (hen : m.self.m_inputDevicesDisabled = false) (kc j : Nat)
    (hlo : m.display.min_keycode ≤ kc) (hhi : kc < m.display.max_keycode) :
    (enableInputDevices false true (disableInputDevices false true m)).display.lookup kc j
      = m.display.lookup kc j := by
  obtain ⟨h1, h2, h3, h4, h5, h6⟩ := disableInputDevices_opened m hv hen
  obtain ⟨e1, _, _⟩ := enableInputDevices_opened (disableInputDevices false true m) _ h1 h2
  rw [e1, h3, h4, h5, h6]
  have hw := XChangeKeyboardMapping_same_width m.display (m.display.min_keycode : Int)
    ((m.display.max_keycode : Int) - (m.display.min_keycode : Int))
    (zeroKeyTable (((m.display.max_keycode : Int) - (m.display.min_keycode : Int))
                * (m.display.keysyms_per_keycode : Int))
      (XGetKeyboardMapping m.display m.display.min_keycode
        ((m.display.max_keycode : Int) - (m.display.min_keycode : Int))).1)
  generalize XChangeKeyboardMapping m.display (m.display.min_keycode : Int)
    (m.display.keysyms_per_keycode : Int) _ _ = d1 at hw ⊢
  rw [← hw, XChangeKeyboardMapping_lookup_same_width, hw, if_pos ⟨by omega, by omega⟩]
  by_cases hj : j < m.display.keysyms_per_keycode
  · rw [if_pos hj, XGetKeyboardMapping_getD m.display m.display.min_keycode kc j _ hlo
      (by omega) hj]
    simp [Display.lookup, hj]
  · simp [Display.lookup, hj]

/-- C12: on the X11 backend, for suspend (display opens), resume (display
cannot be opened), suspend (display opens), resume (display opens): the
failed resume clears the flag and keeps both the saved table and the blanked
mapping; the second suspend replaces the saved table by one fetched from the
blanked mapping, all null symbols; and after the last resume every slot of
every keycode of the captured range holds the null symbol, whatever the
original mapping was, so that every slot that held a symbol has lost it. -/
theorem failed_resume_loses_keymap (m : Machine) (hv : m.display.Valid)
    (hen : m.self.m_inputDevicesDisabled = false) :
    (failedResumeState 2 m).self.m_inputDevicesDisabled = false ∧
      (failedResumeState 2 m).self.m_origKeyTable
        = (failedResumeState 1 m).self.m_origKeyTable ∧
      (failedResumeState 1 m).self.m_origKeyTable
        = some (XGetKeyboardMapping m.display m.display.min_keycode
            ((m.display.max_keycode : Int) - (m.display.min_keycode : Int))).1 ∧
      (failedResumeState 2 m).display = (failedResumeState 1 m).display ∧
      (∀ kc j : Nat, m.display.min_keycode ≤ kc → kc < m.display.max_keycode →
        (failedResumeState 2 m).display.lookup kc j = NoSymbol) ∧
      (failedResumeState 3 m).self.m_origKeyTable
        = some (XGetKeyboardMapping (failedResumeState 2 m).display m.display.min_keycode
            ((m.display.max_keycode : Int) - (m.display.min_keycode : Int))).1 ∧
      (∀ t : List KeySym, (failedResumeState 3 m).self.m_origKeyTable = some t →
        ∀ x ∈ t, x = NoSymbol) ∧
      (failedResumeState 3 m).self.m_keyCodeMin = (m.display.min_keycode : Int) ∧
      (failedResumeState 3 m).self.m_keyCodeCount
        = (m.display.max_keycode : Int) - (m.display.min_keycode : Int) ∧
      failedResumeState 4 m = run false m failedResumeCalls ∧
      (failedResumeState 4 m).self.m_inputDevicesDisabled = false ∧
      (∀ kc j : Nat,
        (failedResumeState 3 m).self.m_keyCodeMin ≤ (kc : Int) →
        (kc : Int) < (failedResumeState 3 m).self.m_keyCodeMin
                      + (failedResumeState 3 m).self.m_keyCodeCount →
        (failedResumeState 4 m).display.lookup kc j = NoSymbol) ∧
      (∀ kc j : Nat, m.display.min_keycode ≤ kc → kc < m.display.max_keycode →
        m.display.lookup kc j ≠ NoSymbol →
        (failedResumeState 4 m).display.lookup kc j ≠ m.display.lookup kc j) := by
  have s1 : failedResumeState 1 m = disableInputDevices false true m := rfl
  have s2 : failedResumeState 2 m
      = enableInputDevices false false (failedResumeState 1 m) := rfl
  have s3 : failedResumeState 3 m
      = disableInputDevices false true (failedResumeState 2 m) := rfl
  have s4 : failedResumeState 4 m
      = enableInputDevices false true (disableInputDevices false true (failedResumeState 2 m)) :=
    rfl
  obtain ⟨a1, a2, _, _, _, _⟩ := disableInputDevices_opened m hv hen
  obtain ⟨b1, b2, b3, b4⟩ := disableInputDevices_dimensions m hv hen
  rw [← s1] at a1 a2 b1 b2 b3 b4
  have e2 := enableInputDevices_unreachable (failedResumeState 1 m) a1
  rw [← s2] at e2
  have hen2 : (failedResumeState 2 m).self.m_inputDevicesDisabled = false := by rw [e2]
  have ht2 : (failedResumeState 2 m).self.m_origKeyTable
      = (failedResumeState 1 m).self.m_origKeyTable := by rw [e2]
  have hd2 : (failedResumeState 2 m).display = (failedResumeState 1 m).display := by rw [e2]
  have hv2 : (failedResumeState 2 m).display.Valid := by rw [hd2]; exact b4
  have hblank2 : ∀ kc j : Nat, m.display.min_keycode ≤ kc → kc < m.display.max_keycode →
      (failedResumeState 2 m).display.lookup kc j = NoSymbol := by
    intro kc j hlo hhi
    rw [hd2, s1]
    exact disable_blanks_queried_range m hv hen kc j hlo hhi
  obtain ⟨_, c2, c3, c4, _, _⟩ := disableInputDevices_opened (failedResumeState 2 m) hv2 hen2
  rw [← s3] at c2 c3 c4
  have hmin : (failedResumeState 2 m).display.min_keycode = m.display.min_keycode := by
    rw [hd2]; exact b1
  have hmax : (failedResumeState 2 m).display.max_keycode = m.display.max_keycode := by
    rw [hd2]; exact b2
  simp only [hmin, hmax] at c2 c3 c4
  have hfinal : ∀ kc j : Nat, m.display.min_keycode ≤ kc → kc < m.display.max_keycode →
      (failedResumeState 4 m).display.lookup kc j = NoSymbol := by
    intro kc j hlo hhi
    rw [s4, disable_enable_lookup (failedResumeState 2 m) hv2 hen2 kc j
      (by rw [hmin]; exact hlo) (by rw [hmax]; exact hhi)]
    exact hblank2 kc j hlo hhi
  refine ⟨hen2, ht2, a2, hd2, hblank2, c2, ?_, c3, c4, rfl, ?_, ?_, ?_⟩
  · intro t ht x hx
    rw [c2] at ht
    injection ht with ht
    subst ht
    refine XGetKeyboardMapping_blank _ _ _ ?_ x hx
    intro kc j hlo hhi
    exact hblank2 kc j hlo (by omega)
  · rw [s4]
    exact enableInputDevices_flag false true _
  · intro kc j hlo hhi
    rw [c3] at hlo hhi
    rw [c4] at hhi
    exact hfinal kc j (by omega) (by omega)
  · intro kc j hlo hhi hne
    rw [hfinal kc j hlo hhi]
    exact fun h => hne h.symm

/-- The sequence evaluated on `sampleMachine`: slot 1 of keycode 9 held 902
and ends up holding the null symbol. -/
theorem failed_resume_loses_keymap_witness :
    sampleMachine.display.Valid ∧
      sampleMachine.self.m_inputDevicesDisabled = false ∧
      sampleMachine.display.lookup 9 1 = 902 ∧
      (run false sampleMachine failedResumeCalls).display.lookup 9 1 = NoSymbol ∧
      (failedResumeState 4 sampleMachine).display.lookup 9 1 = NoSymbol :=
  ⟨by decide, rfl, by decide, by decide,
    (failed_resume_loses_keymap sampleMachine (by decide) rfl).2.2.2.2.2.2.2.2.2.2.2.1 9 1
      (by decide) (by decide)⟩

end Veyon
